import Mathlib

attribute [local semireducible] Rat.add Rat.mul Rat.sub Rat.inv

/-!
Verification of the buyer-side parking front-end (src/pages/Home.tsx and the
parking-details screen) against its natural-language specification.

The JavaScript fragment is embedded shallowly: JS values become the inductive
type `JsVal` (numbers are modelled as exact rationals; NaN produced by failed
numeric conversion is modelled as `Option.none`; `Infinity`, exponent and hex
numeric string literals are not modelled and convert to `none` as well),
objects become association lists with first-match lookup, and every handler
becomes a pure Lean function over explicit state.
-/

/-- A cached price annotation, the value stored under the `__price` key
(`computePriceMeta` output in the source). -/
structure PriceMeta where
  basePrice : ℚ
  discountedPrice : ℚ
  discountPercent : ℚ
  hasDiscount : Bool
deriving DecidableEq, Repr

/-- A JavaScript value as it appears in the parking records and realtime
events.  `obj s` is an opaque object whose `toString()` returns `s`
(for example a boxed Mongo identifier); `meta m` is the cached price
annotation object. -/
inductive JsVal where
  | str (s : String)
  | num (q : ℚ)
  | bool (b : Bool)
  | jnull
  | obj (toStr : String)
  | meta (m : PriceMeta)
deriving DecidableEq, Repr

/-- A JavaScript object: association list, first binding of a key wins
(so `k :: o` models the spread `\x7b ...o, k \x7d` with `k` overriding). -/
abbrev Obj := List (String × JsVal)

/-- Field lookup, `o.k` (absent field is `none`, i.e. `undefined`). -/
def getF (o : Obj) (k : String) : Option JsVal :=
  (o.find? (fun p => p.1 == k)).map Prod.snd

/-- JavaScript truthiness of a value. -/
def truthy : JsVal → Bool
  | .str s => s ≠ ""
  | .num q => q ≠ 0
  | .bool b => b
  | .jnull => false
  | .obj _ => true
  | .meta _ => true

/-- The JS `String(v)` conversion of a defined value.  Integers print without
a denominator; plain objects print their `toString()` result. -/
def jsToString : JsVal → String
  | .str s => s
  | .num q => if q.den = 1 then toString q.num else toString q
  | .bool b => cond b "true" "false"
  | .jnull => "null"
  | .obj s => s
  | .meta _ => "[object Object]"

/-- `String(x)` where `x` may be `undefined`. -/
def strVal : Option JsVal → String
  | none => "undefined"
  | some v => jsToString v

/-- The JS `a || b` operator over possibly-undefined operands. -/
def jsOr (a b : Option JsVal) : Option JsVal :=
  match a with
  | some v => if truthy v then some v else b
  | none => b

/-- The JS `a ?? b` (nullish coalescing) operator. -/
def jsNullish (a b : Option JsVal) : Option JsVal :=
  match a with
  | some .jnull => b
  | some v => some v
  | none => b

/-- Left-biased choice on optional values (used to state shallow-merge
field lookups). -/
def orO (a b : Option JsVal) : Option JsVal :=
  match a with
  | some v => some v
  | none => b

/-- ASCII lowering of one character (the relevant fragment of JS
`toLowerCase` for the status strings handled here). -/
def lowerChar (c : Char) : Char :=
  if 'A' ≤ c ∧ c ≤ 'Z' then Char.ofNat (c.toNat + 32) else c

/-- ASCII `toLowerCase` of a string. -/
def lowerStr (s : String) : String := String.mk (s.data.map lowerChar)

/-- Whitespace test used by the `Number(...)` string trimming. -/
def isWs (c : Char) : Bool := c = ' ' || c = '\t' || c = '\n' || c = '\r'

/-- Trim leading and trailing whitespace from a character list. -/
def trimChars (cs : List Char) : List Char :=
  ((cs.dropWhile isWs).reverse.dropWhile isWs).reverse

/-- Split a character list on the decimal point. -/
def splitOnDot (cs : List Char) : List (List Char) :=
  match cs with
  | [] => [[]]
  | c :: rest =>
    let r := splitOnDot rest
    if c = '.' then [] :: r
    else
      match r with
      | [] => [[c]]
      | h :: t => (c :: h) :: t

/-- Parse a list of decimal digits; `none` when empty or a non-digit occurs. -/
def digitsToNat (cs : List Char) : Option ℕ :=
  if cs.isEmpty then none
  else cs.foldl
    (fun acc c =>
      match acc with
      | none => none
      | some n => if c.isDigit then some (n * 10 + (c.toNat - 48)) else none)
    (some 0)

/-- The JS `Number(s)` conversion for a string, restricted to plain decimal
literals with optional sign and fractional part.  The empty (or blank)
string converts to `0`; anything else unparsable is NaN (`none`). -/
def strToNumber (s : String) : Option ℚ :=
  let t := trimChars s.data
  if t.isEmpty then some 0
  else
    let (sign, rest) : ℚ × List Char :=
      match t with
      | '-' :: cs => (-1, cs)
      | '+' :: cs => (1, cs)
      | cs => (1, cs)
    match splitOnDot rest with
    | [a] => (digitsToNat a).map (fun n => sign * (n : ℚ))
    | [a, b] =>
      if a.isEmpty && b.isEmpty then none
      else
        match (if a.isEmpty then some 0 else digitsToNat a),
              (if b.isEmpty then some 0 else digitsToNat b) with
        | some i, some f => some (sign * ((i : ℚ) + (f : ℚ) / (10 ^ b.length)))
        | _, _ => none
    | _ => none

/-- The JS `Number(v)` conversion; `none` is NaN (plain objects convert
to NaN). -/
def toNumber : JsVal → Option ℚ
  | .num q => some q
  | .bool b => some (cond b 1 0)
  | .jnull => some 0
  | .str s => strToNumber s
  | .obj _ => none
  | .meta _ => none

/-- Rounding to two decimal places as performed by `+x.toFixed(2)`:
nearest hundredth, ties toward positive infinity (ECMA toFixed picks the
larger candidate on a tie). -/
def round2 (x : ℚ) : ℚ := ((x * 100 + 1 / 2).floor : ℚ) / 100

/-- The resolved base price of a record: first defined among
`priceParking`, `pricePerHour`, `price` (else the literal `0`), converted
by `Number(...) || 0` so that NaN collapses to `0` (Home.tsx line 151). -/
def resolvedBase (s : Obj) : ℚ :=
  let baseRaw : Option JsVal :=
    jsNullish (getF s "priceParking")
      (jsNullish (getF s "pricePerHour")
        (jsNullish (getF s "price") (some (.num 0))))
  match baseRaw with
  | some v =>
    match toNumber v with
    | some q => q
    | none => 0
  | none => 0

/-- The clamped discount of Home.tsx lines 153-155: `Number(discount)`
clamped to [0,100], with non-finite (NaN) values treated as 0. -/
def clampedDiscount (s : Obj) : ℚ :=
  match jsNullish (getF s "discount") (some (.num 0)) with
  | some v =>
    match toNumber v with
    | some d => max 0 (min 100 d)
    | none => 0
  | none => 0

/-- `computePriceMeta` (Home.tsx lines 150-163): clamp the discount to
[0,100] (non-finite, i.e. NaN, becomes 0), round base and discounted
price to two decimals, and flag a discount when the clamped discount is
positive and the rounded discounted price undercuts the un-rounded base. -/
def computePriceMeta (s : Obj) : PriceMeta :=
  let base := resolvedBase s
  let clamped : ℚ := clampedDiscount s
  let discounted := round2 (base * (1 - clamped / 100))
  { basePrice := round2 base
    discountedPrice := discounted
    discountPercent := clamped
    hasDiscount := decide (0 < clamped) && decide (discounted < base) }

/-- Price annotation of a record:
`\x7b ...s, __price: s.__price ?? computePriceMeta(s) \x7d`. -/
def annotate (s : Obj) : Obj :=
  let p : JsVal :=
    match jsNullish (getF s "__price") none with
    | some v => v
    | none => .meta (computePriceMeta s)
  ("__price", p) :: s

/-- The lowered status string of a record or event:
`String(x.status || '').toLowerCase()`. -/
def lowerStatus (o : Obj) : String :=
  lowerStr (strVal (jsOr (getF o "status") (some (.str ""))))

/-- The stored-record online flag of `onlyApproved` (Home.tsx line 170):
`typeof s.isOnline !== 'undefined' ? Boolean(s.isOnline) : false`. -/
def truthyOnline (s : Obj) : Bool :=
  match getF s "isOnline" with
  | some v => truthy v
  | none => false

/-- The predicate of `onlyApproved` (Home.tsx lines 168-172): status
lowercases to "submitted" and `isOnline` is present and truthy
(`Boolean(s.isOnline)`, absent means offline). -/
def approvedPred (s : Obj) : Bool :=
  lowerStatus s == "submitted" && truthyOnline s

/-- `onlyApproved` (Home.tsx lines 166-173).  `none` models a null,
undefined or non-array input, which yields the empty collection. -/
def onlyApproved (spaces : Option (List Obj)) : List Obj :=
  match spaces with
  | none => []
  | some l => l.filter approvedPred

/-- The JS `findIndex` over a list, returning the first index satisfying
the predicate (if any). -/
def findIdxJs (p : Obj → Bool) : List Obj → Option ℕ
  | [] => none
  | a :: l => if p a then some 0 else (findIdxJs p l).map (· + 1)

/-- The event identifier `data.parkingId || data._id || data.id`
(Home.tsx line 186, ParkingDetails line 1443). -/
def eventId (data : Obj) : Option JsVal :=
  jsOr (getF data "parkingId") (jsOr (getF data "_id") (getF data "id"))

/-- The stringified event identifier `String(parkingId)` (Home.tsx
line 191). -/
def eventPid (data : Obj) : String := strVal (eventId data)

/-- The buyer map's resolved spot count (Home.tsx lines 187-188):
`typeof data.availableSpots === 'number' ? data.availableSpots
: data.available || data.availableSpots`. -/
def resolvedSpotsHome (data : Obj) : Option JsVal :=
  match getF data "availableSpots" with
  | some (.num q) => some (.num q)
  | _ => jsOr (getF data "available") (getF data "availableSpots")

/-- The detail screen's resolved spot count (ParkingDetails lines
1444-1447): `typeof data.availableSpots === 'number' ? data.availableSpots
: data.available ?? data.availableSpots`. -/
def resolvedSpotsDetail (data : Obj) : Option JsVal :=
  match getF data "availableSpots" with
  | some (.num q) => some (.num q)
  | _ => jsNullish (getF data "available") (getF data "availableSpots")

/-- Strict comparison `sid === pid` where `sid` is the raw `s.id` field
(a non-string value never strict-equals a string). -/
def rawIdMatch (pid : String) : Option JsVal → Bool
  | some (.str t) => t == pid
  | _ => false

/-- The list matcher of Home.tsx lines 192-194: a stored record matches
the stringified event id through
`s._id ? (typeof s._id === 'string' ? s._id : String(s._id)) : s.id`,
compared with `===`. -/
def sidMatches (pid : String) (s : Obj) : Bool :=
  match getF s "_id" with
  | some v => if truthy v then jsToString v == pid else rawIdMatch pid (getF s "id")
  | none => rawIdMatch pid (getF s "id")

/-- The first removal gate of the list updaters (Home.tsx line 200):
`(incomingStatus && incomingStatus !== 'submitted') || incomingOnline === false`
where `incomingOnline` defaults to `true` when `isOnline` is absent. -/
def removalStatusOnline (data : Obj) : Bool :=
  let st := lowerStatus data
  let online : Bool :=
    match getF data "isOnline" with
    | some v => truthy v
    | none => true
  (st != "" && st != "submitted") || !online

/-- The time-window removal gate (Home.tsx line 209):
`startTime && endTime && typeof availableSpots === 'number' && availableSpots <= 0`. -/
def spotsRemoval (tw : Bool) (data : Obj) : Bool :=
  tw &&
    match resolvedSpotsHome data with
    | some (.num q) => decide (q ≤ 0)
    | _ => false

/-- The insert/deselect gate written at Home.tsx lines 223, 267 and 278:
`(data.status && String(data.status).toLowerCase() !== 'submitted') ||
(typeof data.isOnline !== 'undefined' && !data.isOnline)`. -/
def insertGateBlocked (data : Obj) : Bool :=
  (match getF data "status" with
   | some v => truthy v && lowerStr (jsToString v) != "submitted"
   | none => false)
  ||
  (match getF data "isOnline" with
   | some v => !truthy v
   | none => false)

/-- The numeric `availableSpots` override spread
`...(typeof availableSpots === 'number' ? \x7b availableSpots \x7d : \x7b\x7d)`. -/
def spotsOverride (data : Obj) : Obj :=
  match resolvedSpotsHome data with
  | some (.num q) => [("availableSpots", JsVal.num q)]
  | _ => []

/-- The merged entry of Home.tsx lines 220 and 264:
`\x7b ...old, ...data, ...override \x7d` (later spreads win, so lookup
priority is override, then event, then old record). -/
def mergedEntry (data old : Obj) : Obj :=
  spotsOverride data ++ data ++ old

/-- The `setParkingSpaces` updater of the realtime handler (Home.tsx
lines 190-232). -/
def updateList (tw : Bool) (data : Obj) (prev : List Obj) : List Obj :=
  let pid := eventPid data
  let idx := findIdxJs (sidMatches pid) prev
  if removalStatusOnline data then
    match idx with
    | some i => prev.eraseIdx i
    | none => prev
  else if spotsRemoval tw data then
    match idx with
    | some i => prev.eraseIdx i
    | none => prev
  else
    match idx with
    | some i => prev.set i (mergedEntry data (prev.getD i []))
    | none =>
      if insertGateBlocked data then prev
      else if spotsRemoval tw data then prev
      else annotate data :: prev

/-- The `setFilteredSpaces` updater of the realtime handler (Home.tsx
lines 234-272), a verbatim duplicate of the `setParkingSpaces` updater
in the source. -/
def updateListFiltered (tw : Bool) (data : Obj) (prev : List Obj) : List Obj :=
  let pid := eventPid data
  let idx := findIdxJs (sidMatches pid) prev
  if removalStatusOnline data then
    match idx with
    | some i => prev.eraseIdx i
    | none => prev
  else if spotsRemoval tw data then
    match idx with
    | some i => prev.eraseIdx i
    | none => prev
  else
    match idx with
    | some i => prev.set i (mergedEntry data (prev.getD i []))
    | none =>
      if insertGateBlocked data then prev
      else if spotsRemoval tw data then prev
      else annotate data :: prev

/-- The `setSelectedSpace` updater of the realtime handler (Home.tsx
lines 274-287).  The merge there spreads in the order
`\x7b ...prev, ...override, ...data \x7d`, so the event fields win even
over the numeric override. -/
def updateSelected (tw : Bool) (data : Obj) (prev : Option Obj) : Option Obj :=
  match prev with
  | none => none
  | some sp =>
    if sidMatches (eventPid data) sp then
      if insertGateBlocked data then none
      else if spotsRemoval tw data then none
      else some (data ++ spotsOverride data ++ sp)
    else some sp

/-- The buyer map's three projections. -/
structure HomeState where
  parkingSpaces : List Obj
  filteredSpaces : List Obj
  selectedSpace : Option Obj
deriving DecidableEq, Repr

/-- `handleParkingUpdate` of the buyer map (Home.tsx lines 184-288):
a null payload is ignored (`if (!data) return`), otherwise the three
projections are updated independently.  `tw` tells whether both
`startTime` and `endTime` are set. -/
def handleParkingUpdate (tw : Bool) (data : Option Obj) (st : HomeState) : HomeState :=
  match data with
  | none => st
  | some d =>
    { parkingSpaces := updateList tw d st.parkingSpaces
      filteredSpaces := updateListFiltered tw d st.filteredSpaces
      selectedSpace := updateSelected tw d st.selectedSpace }

/-- An object value (`typeof v === 'object'` and truthy). -/
def isObjVal : JsVal → Bool
  | .obj _ => true
  | .meta _ => true
  | _ => false

/-- Truthiness of the resolved event identifier (the `!parkingId` guard
of ParkingDetails line 1449). -/
def truthyId (data : Obj) : Bool :=
  match eventId data with
  | some v => truthy v
  | none => false

/-- The detail screen's stored identifier as a string (ParkingDetails
lines 1451-1454 followed by the `String(sid)` of line 1456): a truthy
object identifier contributes its `toString()`, any other value is
converted by `String(...)`. -/
def detailSid (space : Obj) : String :=
  match getF space "_id" with
  | some v => if truthy v && isObjVal v then jsToString v else strVal (some v)
  | none => strVal none

/-- `handleParkingUpdate` of the detail screen (ParkingDetails lines
1442-1459): drop the event unless the identifier is truthy and the
resolved spot count is numeric; then overwrite only `availableSpots`
when the stringified identifiers agree. -/
def detailHandleParkingUpdate (data : Obj) (space : Obj) : Obj :=
  let pidOk : Bool := truthyId data
  if !pidOk then space
  else
    match resolvedSpotsDetail data with
    | some (.num q) =>
      if strVal (eventId data) == detailSid space then
        ("availableSpots", JsVal.num q) :: space
      else space
    | _ => space

/-- Outcome of `validateTimeSelection` (Home.tsx lines 118-137), one
constructor per distinct branch. -/
inductive TimeValidation where
  | ok
  | errPastStart
  | errEndNotAfter
  | errMinDuration
deriving DecidableEq, Repr

/-- The transient message each validation failure surfaces (Home.tsx
lines 124, 128, 133); `ok` surfaces none. -/
def validationMessage : TimeValidation → Option String
  | .ok => none
  | .errPastStart => some "Start time cannot be in the past"
  | .errEndNotAfter => some "End time must be after start time"
  | .errMinDuration => some "Minimum booking duration is 30 minutes"

/-- `validateTimeSelection` (Home.tsx lines 118-137) over millisecond
timestamps: the three checks run in order and the first failure wins
(`diffMinutes < 30` is equivalent to `e - s < 1800000` ms). -/
def validateTimeSelection (s e now : ℤ) : TimeValidation :=
  if s < now then .errPastStart
  else if e ≤ s then .errEndNotAfter
  else if e - s < 1800000 then .errMinDuration
  else .ok

/-- The guard of the Apply Time Filter button (Home.tsx line 1081):
`if (startTime && endTime && !validateTimeSelection(...)) return;`.
Returns whether the fetch is issued. -/
def applyTimeFilterIssuesFetch (startTime endTime : Option ℤ) (now : ℤ) : Bool :=
  match startTime, endTime with
  | some s, some e => validateTimeSelection s e now == .ok
  | _, _ => true

/-- The availability predicate `(s) => Number(s.availableSpots) > 0`
used after every fetch when a time window is active (NaN compares
false). -/
def numAvailPos (s : Obj) : Bool :=
  match getF s "availableSpots" with
  | some v =>
    match toNumber v with
    | some q => decide (0 < q)
    | none => false
  | none => false

/-- `loadDefaultParkingMarkers` (Home.tsx lines 401-434) as a function of
the two fetch outcomes and the previous collection.  The `getAllSpaces`
result is used only when it is a non-empty array (line 407); otherwise
the nearby fetch is used.  The outer catch (lines 427-431) CLEARS the
collection and reports an error toast.  Returns the new collection and
whether the error toast fired. -/
def loadDefaultParkingMarkers (tw : Bool)
    (allRes nearbyRes : Except Unit (List Obj)) (prev : List Obj) :
    List Obj × Bool :=
  let nearbyPath : List Obj × Bool :=
    match nearbyRes with
    | .ok spaces =>
      let allowed := (onlyApproved (some spaces)).map annotate
      (if tw then allowed.filter numAvailPos else allowed, false)
    | .error _ => ([], true)
  match allRes with
  | .ok all =>
    if all.isEmpty then nearbyPath
    else
      let allowed := (onlyApproved (some all)).map annotate
      (if tw then allowed.filter numAvailPos else allowed, false)
  | .error _ => nearbyPath

/-- The fetch part of `handleLocationSelect` (Home.tsx lines 631-649):
annotate, keep approved, apply the availability filter under a time
window; the catch only toasts and leaves the collection as it was. -/
def locationSelectFetch (tw : Bool) (res : Except Unit (List Obj))
    (prev : List Obj) : List Obj × Bool :=
  match res with
  | .ok spaces =>
    let withPrice := spaces.map annotate
    let allowed := onlyApproved (some withPrice)
    (if tw then allowed.filter numAvailPos else allowed, false)
  | .error _ => (prev, true)

/-- `fetchNearbyParkingSpaces` (Home.tsx lines 436-458): same processing,
and the catch only toasts, preserving the collection. -/
def fetchNearbyFetch (tw : Bool) (res : Except Unit (List Obj))
    (prev : List Obj) : List Obj × Bool :=
  match res with
  | .ok spaces =>
    let withPrice := spaces.map annotate
    let allowed := onlyApproved (some withPrice)
    (if tw then allowed.filter numAvailPos else allowed, false)
  | .error _ => (prev, true)

/-- The Apply Time Filter fetch (Home.tsx lines 1082-1105); the catch
only toasts, preserving the collection. -/
def timeApplyFetch (tw : Bool) (res : Except Unit (List Obj))
    (prev : List Obj) : List Obj × Bool :=
  match res with
  | .ok spaces =>
    let withPrice := spaces.map annotate
    let allowed := onlyApproved (some withPrice)
    (if tw then allowed.filter numAvailPos else allowed, false)
  | .error _ => (prev, true)

/-- The Clear time filter fetch (Home.tsx lines 1115-1133): no time
window, no availability filter; a failure leaves the collection as it
was (there is no catch, only a finally). -/
def timeClearFetch (res : Except Unit (List Obj)) (prev : List Obj) : List Obj :=
  match res with
  | .ok spaces => onlyApproved (some (spaces.map annotate))
  | .error _ => prev

/-- The amenity toggles of the filter sheet. -/
inductive Amenity where
  | covered | security | charging | cctv | wheelchair
deriving DecidableEq, Repr

/-- The `filters` state of Home.tsx lines 73-83. -/
structure FiltersState where
  covered : Bool
  security : Bool
  charging : Bool
  cctv : Bool
  wheelchair : Bool
  priceLo : ℚ
  priceHi : ℚ
  isPriceFilterActive : Bool
deriving DecidableEq, Repr

/-- The initial/cleared filter state (Home.tsx lines 73-83 and 521-527). -/
def defaultFilters : FiltersState :=
  { covered := false, security := false, charging := false, cctv := false,
    wheelchair := false, priceLo := 0, priceHi := 1000,
    isPriceFilterActive := false }

/-- `handleFilterToggle` (Home.tsx lines 512-517). -/
def toggleAmenity (a : Amenity) (f : FiltersState) : FiltersState :=
  match a with
  | .covered => { f with covered := !f.covered }
  | .security => { f with security := !f.security }
  | .charging => { f with charging := !f.charging }
  | .cctv => { f with cctv := !f.cctv }
  | .wheelchair => { f with wheelchair := !f.wheelchair }

/-- The buyer view's full mutable state relevant to the collections. -/
structure BuyerState where
  parkingSpaces : List Obj
  filteredSpaces : List Obj
  selectedSpace : Option Obj
  filters : FiltersState
deriving DecidableEq, Repr

/-- The operations that touch the space collections or the filter state. -/
inductive BuyerOp where
  | initialLoad (tw : Bool) (allRes nearbyRes : Except Unit (List Obj))
  | searchSelect (tw : Bool) (res : Except Unit (List Obj))
  | timeApply (tw : Bool) (res : Except Unit (List Obj))
  | timeClear (res : Except Unit (List Obj))
  | realtime (tw : Bool) (data : Option Obj)
  | amenityToggle (a : Amenity)
  | priceRange (lo hi : ℚ)
  | filtersClear

/-- The `useEffect` of Home.tsx lines 176-178: whenever `parkingSpaces`
changes, `filteredSpaces` is reset to it. -/
def syncFiltered (st : BuyerState) : BuyerState :=
  { st with filteredSpaces := st.parkingSpaces }

/-- One step of the buyer view.  Fetch-driven operations set
`parkingSpaces` and are followed by the mirroring effect; the realtime
handler patches all three projections itself (the mirroring effect then
fires too, but the handler already keeps the lists aligned); the filter
operations touch only the `filters` record. -/
def applyOp (op : BuyerOp) (st : BuyerState) : BuyerState :=
  match op with
  | .initialLoad tw a n =>
    syncFiltered { st with
      parkingSpaces := (loadDefaultParkingMarkers tw a n st.parkingSpaces).1 }
  | .searchSelect tw r =>
    syncFiltered { st with
      parkingSpaces := (locationSelectFetch tw r st.parkingSpaces).1 }
  | .timeApply tw r =>
    syncFiltered { st with
      parkingSpaces := (timeApplyFetch tw r st.parkingSpaces).1 }
  | .timeClear r =>
    syncFiltered { st with
      parkingSpaces := timeClearFetch r st.parkingSpaces }
  | .realtime tw data =>
    match data with
    | none => st
    | some d =>
      { st with
        parkingSpaces := updateList tw d st.parkingSpaces
        filteredSpaces := updateListFiltered tw d st.filteredSpaces
        selectedSpace := updateSelected tw d st.selectedSpace }
  | .amenityToggle a => { st with filters := toggleAmenity a st.filters }
  | .priceRange lo hi =>
    { st with filters :=
      { st.filters with priceLo := lo, priceHi := hi, isPriceFilterActive := true } }
  | .filtersClear => { st with filters := defaultFilters }

/-- Removal of the first entry matching the stringified identifier (the
splice of the removal branches); the identity when nothing matches. -/
def eraseFirst (pid : String) (l : List Obj) : List Obj :=
  match findIdxJs (sidMatches pid) l with
  | some i => l.eraseIdx i
  | none => l

/-- Deselection: the selected slot is nulled exactly when it holds the
matching identifier. -/
def clearIfMatches (pid : String) : Option Obj → Option Obj
  | none => none
  | some sp => if sidMatches pid sp then none else some sp

/-! Helper lemmas. -/

theorem ratFloor_eq_intFloor (x : ℚ) : (Rat.floor x : ℤ) = ⌊x⌋ :=
  (Rat.floor_def' x).trans Rat.floor_def.symm

theorem round2_eq (x : ℚ) : round2 x = ((⌊x * 100 + 1 / 2⌋ : ℤ) : ℚ) / 100 := by
  rw [round2, ratFloor_eq_intFloor]

theorem round2_mono {x y : ℚ} (h : x ≤ y) : round2 x ≤ round2 y := by
  rw [round2_eq, round2_eq]
  have hf : (⌊x * 100 + 1 / 2⌋ : ℤ) ≤ ⌊y * 100 + 1 / 2⌋ := by
    apply Int.floor_le_floor
    nlinarith
  have : ((⌊x * 100 + 1 / 2⌋ : ℤ) : ℚ) ≤ ((⌊y * 100 + 1 / 2⌋ : ℤ) : ℚ) := by
    exact_mod_cast hf
  linarith

theorem lowerStr_empty : lowerStr "" = "" := by decide

theorem getF_nil (k : String) : getF [] k = none := rfl

theorem getF_cons (k₁ : String) (v : JsVal) (o : Obj) (k : String) :
    getF ((k₁, v) :: o) k = if k₁ == k then some v else getF o k := by
  by_cases h : k₁ == k <;> simp [getF, List.find?, h]

theorem getF_append (o₁ o₂ : Obj) (k : String) :
    getF (o₁ ++ o₂) k = orO (getF o₁ k) (getF o₂ k) := by
  induction o₁ with
  | nil => simp [getF_nil, orO]
  | cons p rest ih =>
    obtain ⟨k₁, v⟩ := p
    by_cases h : k₁ == k
    · simp [List.cons_append, getF_cons, h, orO]
    · simp [List.cons_append, getF_cons, h, ih]

theorem findIdxJs_some_lt {p : Obj → Bool} {l : List Obj} {i : ℕ}
    (h : findIdxJs p l = some i) : i < l.length := by
  induction l generalizing i with
  | nil => simp [findIdxJs] at h
  | cons a rest ih =>
    by_cases hp : p a
    · simp [findIdxJs, hp] at h
      simp [← h]
    · simp [findIdxJs, hp] at h
      obtain ⟨j, hj, rfl⟩ := h
      have := ih hj
      simp only [List.length_cons]
      omega

theorem getD_set_self {l : List Obj} {i : ℕ} (x d : Obj) (h : i < l.length) :
    (l.set i x).getD i d = x := by
  induction l generalizing i with
  | nil => simp at h
  | cons a rest ih =>
    cases i with
    | zero => simp [List.set, List.getD]
    | succ j =>
      simp only [List.set, List.getD_cons_succ]
      exact ih (by simpa using h)

theorem getD_set_ne {l : List Obj} {i j : ℕ} (x d : Obj) (h : j ≠ i) :
    (l.set i x).getD j d = l.getD j d := by
  induction l generalizing i j with
  | nil => simp [List.set]
  | cons a rest ih =>
    cases i with
    | zero =>
      cases j with
      | zero => omega
      | succ j₁ => simp [List.set, List.getD_cons_succ]
    | succ i₁ =>
      cases j with
      | zero => simp [List.set, List.getD_cons_zero]
      | succ j₁ =>
        simp only [List.set, List.getD_cons_succ]
        exact ih (by omega)

theorem lowerStatus_none {data : Obj} (hv : getF data "status" = none) :
    lowerStatus data = "" := by
  rw [lowerStatus, hv]
  simp [jsOr, strVal, jsToString, lowerStr_empty]

theorem lowerStatus_falsy {data : Obj} {v : JsVal} (hv : getF data "status" = some v)
    (ht : truthy v = false) : lowerStatus data = "" := by
  rw [lowerStatus, hv]
  simp [jsOr, ht, strVal, jsToString, lowerStr_empty]

theorem lowerStatus_truthy {data : Obj} {v : JsVal} (hv : getF data "status" = some v)
    (ht : truthy v = true) : lowerStatus data = lowerStr (jsToString v) := by
  rw [lowerStatus, hv]
  simp [jsOr, ht, strVal]

theorem statusOnline_imp_gate {data : Obj}
    (h : removalStatusOnline data = true) : insertGateBlocked data = true := by
  unfold removalStatusOnline at h
  unfold insertGateBlocked
  simp only [Bool.or_eq_true] at h ⊢
  rcases h with hs | ho
  · refine Or.inl ?_
    simp only [Bool.and_eq_true, bne_iff_ne, ne_eq] at hs
    rcases hv : getF data "status" with _ | v
    · exact absurd (lowerStatus_none hv) hs.1
    · rcases ht : truthy v with _ | _
      · exact absurd (lowerStatus_falsy hv ht) hs.1
      · simp only [ht, Bool.true_and, bne_iff_ne, ne_eq]
        rw [lowerStatus_truthy hv ht] at hs
        exact hs.2
  · refine Or.inr ?_
    rcases hv : getF data "isOnline" with _ | v
    · rw [hv] at ho; simp at ho
    · rw [hv] at ho
      simpa using ho

theorem updateListFiltered_eq (tw : Bool) (data : Obj) (l : List Obj) :
    updateListFiltered tw data l = updateList tw data l := rfl

theorem updateList_removal {tw : Bool} {data : Obj} (l : List Obj)
    (h : (removalStatusOnline data || spotsRemoval tw data) = true) :
    updateList tw data l = eraseFirst (eventPid data) l := by
  rcases Bool.or_eq_true _ _ |>.mp h with h1 | h2
  · simp [updateList, eraseFirst, h1]
  · by_cases h1 : removalStatusOnline data
    · simp [updateList, eraseFirst, h1]
    · simp [updateList, eraseFirst, h1, h2]

theorem updateSelected_removal {tw : Bool} {data : Obj} (sel : Option Obj)
    (h : (removalStatusOnline data || spotsRemoval tw data) = true) :
    updateSelected tw data sel = clearIfMatches (eventPid data) sel := by
  cases sel with
  | none => rfl
  | some sp =>
    by_cases hm : sidMatches (eventPid data) sp
    · rcases Bool.or_eq_true _ _ |>.mp h with h1 | h2
      · have hg := statusOnline_imp_gate h1
        simp [updateSelected, clearIfMatches, hm, hg]
      · by_cases hg : insertGateBlocked data
        · simp [updateSelected, clearIfMatches, hm, hg]
        · simp [updateSelected, clearIfMatches, hm, hg, h2]
    · simp [updateSelected, clearIfMatches, hm]

/-- C1: for every realtime event whose removal condition holds (non-empty
lowered status other than "submitted", or online flag false with the
default `true` when absent, or an active time window with a numeric
resolved spot count ≤ 0), the handler removes the first entry matching
the stringified identifier from the full and the filtered collection and
nulls the selected slot exactly when it holds that identifier; when no
entry matches, each projection is left unchanged. -/
theorem c1_reconciler_removal (tw : Bool) (data : Obj) (st : HomeState)
    (h : (removalStatusOnline data || spotsRemoval tw data) = true) :
    handleParkingUpdate tw (some data) st =
      { parkingSpaces := eraseFirst (eventPid data) st.parkingSpaces
        filteredSpaces := eraseFirst (eventPid data) st.filteredSpaces
        selectedSpace := clearIfMatches (eventPid data) st.selectedSpace } ∧
    (findIdxJs (sidMatches (eventPid data)) st.parkingSpaces = none →
        eraseFirst (eventPid data) st.parkingSpaces = st.parkingSpaces) ∧
    (findIdxJs (sidMatches (eventPid data)) st.filteredSpaces = none →
        eraseFirst (eventPid data) st.filteredSpaces = st.filteredSpaces) := by
  refine ⟨?_, ?_, ?_⟩
  · simp only [handleParkingUpdate, updateListFiltered_eq,
      updateList_removal _ h, updateSelected_removal _ h]
  · intro hn
    simp [eraseFirst, hn]
  · intro hn
    simp [eraseFirst, hn]

/-- A demo stored record with string identifier "a". -/
def spDemo : Obj := [("_id", .str "a"), ("title", .str "t")]

/-- A demo rejection event for identifier "a". -/
def dRejDemo : Obj := [("parkingId", .str "a"), ("status", .str "Rejected")]

/-- Witness for C1 at a concrete rejected event. -/
theorem c1_reconciler_removal_witness :
    (removalStatusOnline dRejDemo || spotsRemoval false dRejDemo) = true ∧
    (handleParkingUpdate false (some dRejDemo) ⟨[spDemo], [spDemo], some spDemo⟩ =
      { parkingSpaces := eraseFirst (eventPid dRejDemo) [spDemo]
        filteredSpaces := eraseFirst (eventPid dRejDemo) [spDemo]
        selectedSpace := clearIfMatches (eventPid dRejDemo) (some spDemo) } ∧
    (findIdxJs (sidMatches (eventPid dRejDemo)) [spDemo] = none →
        eraseFirst (eventPid dRejDemo) [spDemo] = [spDemo]) ∧
    (findIdxJs (sidMatches (eventPid dRejDemo)) [spDemo] = none →
        eraseFirst (eventPid dRejDemo) [spDemo] = [spDemo])) :=
  ⟨by decide,
   c1_reconciler_removal false dRejDemo ⟨[spDemo], [spDemo], some spDemo⟩ (by decide)⟩

theorem orO_none (b : Option JsVal) : orO none b = b := rfl

theorem orO_some (v : JsVal) (b : Option JsVal) : orO (some v) b = some v := rfl

/-- A demo status-free event for identifier "a" reporting zero spots. -/
def dZeroDemo : Obj := [("parkingId", .str "a"), ("availableSpots", .num 0)]

/-- Counterexample to C2 as stated: an event with no status and no
isOnline field and the numeric `availableSpots` 0, applied while a time
window is active to a collection containing the matching entry, does not
keep the entry count unchanged — the entry is removed. -/
theorem c2_time_window_cex :
    getF dZeroDemo "status" = none ∧ getF dZeroDemo "isOnline" = none ∧
    getF dZeroDemo "availableSpots" = some (.num 0) ∧
    findIdxJs (sidMatches (eventPid dZeroDemo)) [spDemo] = some 0 ∧
    ¬ (updateList true dZeroDemo [spDemo]).length = ([spDemo] : List Obj).length := by
  decide

/-- C2 amended: the merge behaviour holds provided the event additionally
escapes the time-window removal gate (no active window, or a positive
spot count): the matched entry gets `availableSpots := v`, every field
is resolved event-first (event wins, absent event fields keep the old
value), every other entry and the entry count are unchanged, and the
filtered-list updater acts identically. -/
theorem c2_merge_amended (tw : Bool) (data : Obj) (v : ℚ) (prev : List Obj) (i : ℕ)
    (hs : getF data "status" = none) (ho : getF data "isOnline" = none)
    (ha : getF data "availableSpots" = some (.num v))
    (htw : tw = false ∨ 0 < v)
    (hi : findIdxJs (sidMatches (eventPid data)) prev = some i) :
    (updateList tw data prev).length = prev.length ∧
    getF ((updateList tw data prev).getD i []) "availableSpots" = some (.num v) ∧
    (∀ k : String, getF ((updateList tw data prev).getD i []) k
        = orO (getF data k) (getF (prev.getD i []) k)) ∧
    (∀ j : ℕ, j ≠ i → (updateList tw data prev).getD j [] = prev.getD j []) ∧
    updateListFiltered tw data prev = updateList tw data prev := by
  have hrso : removalStatusOnline data = false := by
    simp [removalStatusOnline, lowerStatus_none hs, ho]
  have hres : resolvedSpotsHome data = some (.num v) := by
    simp [resolvedSpotsHome, ha]
  have hspots : spotsRemoval tw data = false := by
    rcases htw with h | h
    · simp [spotsRemoval, h]
    · have hv : ¬ (v ≤ 0) := not_le.mpr h
      simp [spotsRemoval, hres, hv]
  have hupd : updateList tw data prev = prev.set i (mergedEntry data (prev.getD i [])) := by
    simp [updateList, hrso, hspots, hi]
  have hlt : i < prev.length := findIdxJs_some_lt hi
  have hov : spotsOverride data = [("availableSpots", JsVal.num v)] := by
    simp [spotsOverride, hres]
  have hmerge : ∀ k : String, getF (mergedEntry data (prev.getD i [])) k
      = orO (getF data k) (getF (prev.getD i []) k) := by
    intro k
    rw [mergedEntry, List.append_assoc, getF_append, getF_append, hov, getF_cons]
    by_cases hk : ("availableSpots" : String) = k
    · subst hk
      simp [ha, orO]
    · have hk2 : (("availableSpots" : String) == k) = false := by
        simpa using hk
      rw [hk2]
      simp [getF_nil, orO_none]
  refine ⟨?_, ?_, ?_, ?_, updateListFiltered_eq tw data prev⟩
  · rw [hupd, List.length_set]
  · rw [hupd, getD_set_self _ _ hlt, hmerge "availableSpots", ha, orO_some]
  · intro k
    rw [hupd, getD_set_self _ _ hlt, hmerge k]
  · intro j hj
    rw [hupd, getD_set_ne _ _ hj]

/-- A demo merge event for identifier "a". -/
def dMergeDemo : Obj :=
  [("parkingId", .str "a"), ("availableSpots", .num 4), ("title", .str "new")]

/-- Witness for the amended C2 at a concrete merge event. -/
theorem c2_merge_witness :
    (updateList false dMergeDemo [spDemo]).length = ([spDemo] : List Obj).length ∧
    getF ((updateList false dMergeDemo [spDemo]).getD 0 []) "availableSpots"
      = some (.num 4) ∧
    (∀ k : String, getF ((updateList false dMergeDemo [spDemo]).getD 0 []) k
        = orO (getF dMergeDemo k) (getF (([spDemo] : List Obj).getD 0 []) k)) ∧
    (∀ j : ℕ, j ≠ 0 → (updateList false dMergeDemo [spDemo]).getD j []
        = ([spDemo] : List Obj).getD j []) ∧
    updateListFiltered false dMergeDemo [spDemo] = updateList false dMergeDemo [spDemo] :=
  c2_merge_amended false dMergeDemo 4 [spDemo] 0 (by decide) (by decide) (by decide)
    (Or.inl rfl) (by decide)

/-- Numericity of an optional value (`typeof x === 'number'`). -/
def isNumOpt : Option JsVal → Bool
  | some (.num _) => true
  | _ => false

theorem jsOr_truthy {v : JsVal} (b : Option JsVal) (h : truthy v = true) :
    jsOr (some v) b = some v := by
  simp [jsOr, h]

theorem jsNullish_truthy {v : JsVal} (b : Option JsVal) (h : truthy v = true) :
    jsNullish (some v) b = some v := by
  cases v <;> simp_all [jsNullish, truthy]

/-- A demo event whose `available` field is the (falsy) number 0 and
whose `availableSpots` field is absent. -/
def dAvailZeroDemo : Obj := [("parkingId", .str "a"), ("available", .num 0)]

/-- Counterexample to C3 as stated: for an event with absent
`availableSpots` and the numeric `available` 0, the buyer map resolves
the spot count to `undefined` (the `||` fallback skips the falsy 0)
while the detail screen resolves it to 0 — so the resolved count does
not equal the `available` field on the buyer map and the two handlers
do not follow the same rule. -/
theorem c3_resolution_cex :
    isNumOpt (getF dAvailZeroDemo "availableSpots") = false ∧
    getF dAvailZeroDemo "available" = some (.num 0) ∧
    resolvedSpotsHome dAvailZeroDemo = none ∧
    resolvedSpotsDetail dAvailZeroDemo = some (.num 0) ∧
    ¬ resolvedSpotsHome dAvailZeroDemo = resolvedSpotsDetail dAvailZeroDemo := by
  decide

/-- C3 amended: a numeric `availableSpots` is the resolved count in both
handlers; otherwise the buyer map falls back to
`available || availableSpots` and the detail screen to
`available ?? availableSpots`, and the two agree (on the `available`
field) whenever that field holds a truthy value. -/
theorem c3_resolution_amended (data : Obj) :
    (∀ q : ℚ, getF data "availableSpots" = some (.num q) →
        resolvedSpotsHome data = some (.num q) ∧
        resolvedSpotsDetail data = some (.num q)) ∧
    (∀ v : JsVal, isNumOpt (getF data "availableSpots") = false →
        getF data "available" = some v → truthy v = true →
        resolvedSpotsHome data = some v ∧ resolvedSpotsDetail data = some v) := by
  constructor
  · intro q h
    constructor
    · simp [resolvedSpotsHome, h]
    · simp [resolvedSpotsDetail, h]
  · intro v hn hav htr
    rcases hsp : getF data "availableSpots" with _ | val
    · constructor
      · rw [resolvedSpotsHome, hsp]
        simp only []
        rw [hav, jsOr_truthy _ htr]
      · rw [resolvedSpotsDetail, hsp]
        simp only []
        rw [hav, jsNullish_truthy _ htr]
    · rw [hsp] at hn
      cases val with
      | num q => simp [isNumOpt] at hn
      | str s =>
        refine ⟨?_, ?_⟩
        · rw [resolvedSpotsHome, hsp]; rw [hav, jsOr_truthy _ htr]
        · rw [resolvedSpotsDetail, hsp]; rw [hav, jsNullish_truthy _ htr]
      | bool b =>
        refine ⟨?_, ?_⟩
        · rw [resolvedSpotsHome, hsp]; rw [hav, jsOr_truthy _ htr]
        · rw [resolvedSpotsDetail, hsp]; rw [hav, jsNullish_truthy _ htr]
      | jnull =>
        refine ⟨?_, ?_⟩
        · rw [resolvedSpotsHome, hsp]; rw [hav, jsOr_truthy _ htr]
        · rw [resolvedSpotsDetail, hsp]; rw [hav, jsNullish_truthy _ htr]
      | obj s =>
        refine ⟨?_, ?_⟩
        · rw [resolvedSpotsHome, hsp]; rw [hav, jsOr_truthy _ htr]
        · rw [resolvedSpotsDetail, hsp]; rw [hav, jsNullish_truthy _ htr]
      | meta m =>
        refine ⟨?_, ?_⟩
        · rw [resolvedSpotsHome, hsp]; rw [hav, jsOr_truthy _ htr]
        · rw [resolvedSpotsDetail, hsp]; rw [hav, jsNullish_truthy _ htr]

/-- A demo event carrying a truthy `available` count. -/
def dAvailSevenDemo : Obj := [("parkingId", .str "a"), ("available", .num 7)]

/-- Witness for the amended C3 at a concrete event. -/
theorem c3_resolution_witness :
    resolvedSpotsHome dAvailSevenDemo = some (.num 7) ∧
    resolvedSpotsDetail dAvailSevenDemo = some (.num 7) :=
  (c3_resolution_amended dAvailSevenDemo).2 (.num 7) (by decide) (by decide) (by decide)

/-- A demo event carrying no identifier at all. -/
def dNoIdDemo : Obj := [("available", .num 5)]

/-- Counterexample to C4 as stated: the buyer-map handler has no
missing-field guard — an event with no identifier (and no status or
online flag) passes the eligibility gates and is INSERTED as a new entry
into the full collection, so the projections do change. -/
theorem c4_missing_id_cex :
    eventId dNoIdDemo = none ∧
    (handleParkingUpdate false (some dNoIdDemo)
        ⟨[], [], none⟩).parkingSpaces = [annotate dNoIdDemo] ∧
    ¬ handleParkingUpdate false (some dNoIdDemo) ⟨[], [], none⟩
        = (⟨[], [], none⟩ : HomeState) := by
  decide

/-- C4 amended: only the detail-screen handler silently drops a payload
missing required fields — whenever the resolved identifier is falsy or
the resolved spot count is non-numeric, the displayed space is left
entirely unchanged; the buyer-map handler has no such guard and an
identifier-free event can insert a new entry when it passes the
eligibility gates. -/
theorem c4_silent_drop_amended :
    (∀ data space : Obj,
      truthyId data = false ∨ isNumOpt (resolvedSpotsDetail data) = false →
      detailHandleParkingUpdate data space = space) ∧
    (handleParkingUpdate false (some dNoIdDemo)
        ⟨[], [], none⟩).parkingSpaces = [annotate dNoIdDemo] := by
  constructor
  · intro data space h
    rcases h with h | h
    · simp [detailHandleParkingUpdate, h]
    · by_cases hp : truthyId data
      · rcases hr : resolvedSpotsDetail data with _ | val
        · simp [detailHandleParkingUpdate, hp, hr]
        · cases val with
          | num q => rw [hr] at h; simp [isNumOpt] at h
          | str s => simp [detailHandleParkingUpdate, hp, hr]
          | bool b => simp [detailHandleParkingUpdate, hp, hr]
          | jnull => simp [detailHandleParkingUpdate, hp, hr]
          | obj s => simp [detailHandleParkingUpdate, hp, hr]
          | meta m => simp [detailHandleParkingUpdate, hp, hr]
      · simp [detailHandleParkingUpdate, hp]
  · decide

/-- Witness for the amended C4: the identifier-free event leaves the
detail screen's space untouched. -/
theorem c4_silent_drop_witness :
    detailHandleParkingUpdate dNoIdDemo spDemo = spDemo :=
  c4_silent_drop_amended.1 dNoIdDemo spDemo (Or.inl (by decide))

/-- Counterexample to C5 as stated: a failure of the default-markers
loader — which also runs on the post-load "Near Me" and
go-to-current-location actions (Home.tsx lines 472, 563, 817) — does NOT
preserve the previously rendered collection: the catch clears it to
empty (with the error toast) even though the prior collection was
non-empty. -/
theorem c5_load_failure_cex :
    loadDefaultParkingMarkers false (.error ()) (.error ()) [spDemo] = ([], true) ∧
    ¬ (loadDefaultParkingMarkers false (.error ()) (.error ()) [spDemo]).1 = [spDemo] := by
  decide

/-- C5 amended: the search-selection fetch, the unscoped nearby fetch and
the time-filter apply fetch preserve the prior collection on failure and
surface a transient error, and the time-filter clear fetch preserves it
silently; the default-markers loader instead clears the collection to
empty on failure (with a transient error), so the collection can become
empty after a failure beyond the very first load. -/
theorem c5_failure_handling_amended :
    (∀ (tw : Bool) (prev : List Obj),
      locationSelectFetch tw (.error ()) prev = (prev, true)) ∧
    (∀ (tw : Bool) (prev : List Obj),
      fetchNearbyFetch tw (.error ()) prev = (prev, true)) ∧
    (∀ (tw : Bool) (prev : List Obj),
      timeApplyFetch tw (.error ()) prev = (prev, true)) ∧
    (∀ prev : List Obj, timeClearFetch (.error ()) prev = prev) ∧
    (∀ (tw : Bool) (prev : List Obj),
      loadDefaultParkingMarkers tw (.error ()) (.error ()) prev = ([], true)) ∧
    (∀ (tw : Bool) (prev : List Obj),
      loadDefaultParkingMarkers tw (.ok []) (.error ()) prev = ([], true)) :=
  ⟨fun _ _ => rfl, fun _ _ => rfl, fun _ _ => rfl, fun _ => rfl,
   fun _ _ => rfl, fun _ _ => rfl⟩

/-- Modelled from the claim's words, for comparison with the source's
`onlyApproved`: keep exactly the records whose lowercased status equals
"submitted" and whose `isOnline` field is literally the boolean `true`. -/
def approvalFilterClaim (spaces : Option (List Obj)) : List Obj :=
  match spaces with
  | none => []
  | some l =>
    l.filter (fun s =>
      lowerStatus s == "submitted" && (getF s "isOnline" == some (.bool true)))

/-- A demo record that is submitted and online via the truthy number 1. -/
def recOnlineOneDemo : Obj := [("status", .str "submitted"), ("isOnline", .num 1)]

/-- Counterexample to C6 as stated: the source keeps a record whose
`isOnline` is the truthy number 1 (it uses `Boolean(s.isOnline)`, not a
strict `=== true` comparison), while the claim's filter drops it. -/
theorem c6_online_flag_cex :
    onlyApproved (some [recOnlineOneDemo]) = [recOnlineOneDemo] ∧
    approvalFilterClaim (some [recOnlineOneDemo]) = [] ∧
    ¬ onlyApproved (some [recOnlineOneDemo])
        = approvalFilterClaim (some [recOnlineOneDemo]) := by
  decide

/-- C6 amended: a null/undefined/non-array input yields the empty
collection; otherwise the filter keeps exactly the records whose
lowercased status is "submitted" and whose `isOnline` field is present
and truthy (not only the literal `true`), preserving the input's
relative order (the output is a sublist); the filter is idempotent. -/
theorem c6_filter_amended :
    onlyApproved none = [] ∧
    (∀ l : List Obj, (onlyApproved (some l)).Sublist l) ∧
    (∀ (l : List Obj) (s : Obj), s ∈ onlyApproved (some l) ↔
        s ∈ l ∧ lowerStatus s = "submitted" ∧ truthyOnline s = true) ∧
    (∀ l : List Obj, onlyApproved (some (onlyApproved (some l))) = onlyApproved (some l)) := by
  refine ⟨rfl, ?_, ?_, ?_⟩
  · intro l
    exact List.filter_sublist l
  · intro l s
    simp [onlyApproved, List.mem_filter, approvedPred, Bool.and_eq_true, and_assoc]
  · intro l
    simp only [onlyApproved, List.filter_filter]
    congr 1
    funext a
    exact Bool.and_self (approvedPred a)

/-- A demo approved record. -/
def spApprovedDemo : Obj :=
  [("status", .str "submitted"), ("isOnline", .bool true), ("_id", .str "a")]

/-- Witness for the amended C6 at a concrete approved record. -/
theorem c6_filter_witness :
    spApprovedDemo ∈ onlyApproved (some [spApprovedDemo]) :=
  (c6_filter_amended.2.2.1 [spApprovedDemo] spApprovedDemo).mpr
    ⟨by decide, by decide, by decide⟩

theorem clampedDiscount_nonneg (s : Obj) : 0 ≤ clampedDiscount s := by
  unfold clampedDiscount
  rcases h1 : jsNullish (getF s "discount") (some (.num 0)) with _ | v
  · norm_num
  · rcases h2 : toNumber v with _ | d
    · simp [h2]
    · have h : (0 : ℚ) ≤ 0 ⊔ (100 ⊓ d) := le_max_left 0 _
      simpa [h2] using h

theorem clampedDiscount_le_100 (s : Obj) : clampedDiscount s ≤ 100 := by
  unfold clampedDiscount
  rcases h1 : jsNullish (getF s "discount") (some (.num 0)) with _ | v
  · norm_num
  · rcases h2 : toNumber v with _ | d
    · simp [h2]
    · have h : (0 : ℚ) ⊔ (100 ⊓ d) ≤ 100 :=
        max_le (by norm_num) (min_le_left 100 d)
      simpa [h2] using h

/-- A demo record with a negative base price and a 50% discount. -/
def recNegPriceDemo : Obj := [("price", .num (-100)), ("discount", .num 50)]

/-- A demo record whose base price carries a third decimal digit. -/
def recThirdDecimalDemo : Obj :=
  [("price", .num (10004 / 1000)), ("discount", .num (1 / 100))]

/-- Counterexample to C7 as stated: (i) for a record with base price
-100 and discount 50 the output has discountedPrice -50 > basePrice
-100, refuting `discountedPrice ≤ basePrice`; (ii) for base price 10.004
and discount 0.01 the code sets hasDiscount (it compares the rounded
discounted price 10.00 with the UN-rounded base 10.004) although
`discountedPrice < basePrice` is false (10.00 < 10.00 fails), refuting
the claimed characterisation of hasDiscount. -/
theorem c7_price_cex :
    (¬ (computePriceMeta recNegPriceDemo).discountedPrice
        ≤ (computePriceMeta recNegPriceDemo).basePrice) ∧
    ((computePriceMeta recThirdDecimalDemo).hasDiscount = true ∧
      ¬ (computePriceMeta recThirdDecimalDemo).discountedPrice
          < (computePriceMeta recThirdDecimalDemo).basePrice) := by
  decide

/-- C7 amended: for every record, discountPercent is the discount
clamped to [0,100] (non-finite treated as 0); basePrice and
discountedPrice are the two-decimal roundings of the resolved base and
of base*(1 - clamped/100); `discountedPrice ≤ basePrice` holds whenever
the resolved base price is nonnegative; and hasDiscount holds exactly
when the clamped discount is positive and the rounded discounted price
is below the UN-rounded resolved base.  (The function is pure by
construction.) -/
theorem c7_price_amended (s : Obj) :
    0 ≤ (computePriceMeta s).discountPercent ∧
    (computePriceMeta s).discountPercent ≤ 100 ∧
    (computePriceMeta s).discountPercent = clampedDiscount s ∧
    (computePriceMeta s).basePrice = round2 (resolvedBase s) ∧
    (computePriceMeta s).discountedPrice
      = round2 (resolvedBase s * (1 - clampedDiscount s / 100)) ∧
    (0 ≤ resolvedBase s →
      (computePriceMeta s).discountedPrice ≤ (computePriceMeta s).basePrice) ∧
    ((computePriceMeta s).hasDiscount = true ↔
      0 < clampedDiscount s ∧
        (computePriceMeta s).discountedPrice < resolvedBase s) := by
  refine ⟨clampedDiscount_nonneg s, clampedDiscount_le_100 s, rfl, rfl, rfl, ?_, ?_⟩
  · intro hb
    have h0 : 0 ≤ clampedDiscount s := clampedDiscount_nonneg s
    have h100 : clampedDiscount s ≤ 100 := clampedDiscount_le_100 s
    have hle : resolvedBase s * (1 - clampedDiscount s / 100) ≤ resolvedBase s := by
      nlinarith
    exact round2_mono hle
  · show (decide (0 < clampedDiscount s)
        && decide (round2 (resolvedBase s * (1 - clampedDiscount s / 100))
            < resolvedBase s)) = true ↔ _
    rw [Bool.and_eq_true, decide_eq_true_iff, decide_eq_true_iff]
    exact Iff.rfl

/-- Witness for the amended C7 at a concrete nonnegative-price record. -/
theorem c7_price_witness :
    (computePriceMeta recOnlineOneDemo).discountedPrice
      ≤ (computePriceMeta recOnlineOneDemo).basePrice :=
  ((((((c7_price_amended recOnlineOneDemo).2).2).2).2).2).1 (by decide)

/-- C8: the time-selection checks run in a fixed order with the first
failure winning — each outcome is characterised by the conjunction of
all earlier checks passing and its own failing — the three failure
messages are pairwise distinct transient messages, a validation failure
suppresses the fetch of the Apply button, and in particular
(now-1h, now+1h) is rejected as a past start and (T, T+10min) with
T not in the past is rejected for the minimum duration. -/
theorem c8_time_validation :
    (∀ s e now : ℤ, validateTimeSelection s e now = .errPastStart ↔ s < now) ∧
    (∀ s e now : ℤ, validateTimeSelection s e now = .errEndNotAfter ↔
        now ≤ s ∧ e ≤ s) ∧
    (∀ s e now : ℤ, validateTimeSelection s e now = .errMinDuration ↔
        now ≤ s ∧ s < e ∧ e - s < 1800000) ∧
    (∀ s e now : ℤ, validateTimeSelection s e now = .ok ↔
        now ≤ s ∧ s < e ∧ 1800000 ≤ e - s) ∧
    (validationMessage .errPastStart ≠ validationMessage .errEndNotAfter ∧
      validationMessage .errPastStart ≠ validationMessage .errMinDuration ∧
      validationMessage .errEndNotAfter ≠ validationMessage .errMinDuration ∧
      validationMessage .errPastStart ≠ none ∧
      validationMessage .errEndNotAfter ≠ none ∧
      validationMessage .errMinDuration ≠ none) ∧
    (∀ s e now : ℤ, ¬ validateTimeSelection s e now = .ok →
        applyTimeFilterIssuesFetch (some s) (some e) now = false) ∧
    (∀ now : ℤ,
        validateTimeSelection (now - 3600000) (now + 3600000) now = .errPastStart) ∧
    (∀ t now : ℤ, now ≤ t →
        validateTimeSelection t (t + 600000) now = .errMinDuration) := by
  refine ⟨?_, ?_, ?_, ?_, ?_, ?_, ?_, ?_⟩
  · intro s e now
    unfold validateTimeSelection
    split_ifs with h1 h2 h3 <;> simp <;> omega
  · intro s e now
    unfold validateTimeSelection
    split_ifs with h1 h2 h3 <;> simp <;> omega
  · intro s e now
    unfold validateTimeSelection
    split_ifs with h1 h2 h3 <;> simp <;> omega
  · intro s e now
    unfold validateTimeSelection
    split_ifs with h1 h2 h3 <;> simp <;> omega
  · refine ⟨?_, ?_, ?_, ?_, ?_, ?_⟩ <;> decide
  · intro s e now h
    have hb : (validateTimeSelection s e now == TimeValidation.ok) = false := by
      simpa using h
    simp [applyTimeFilterIssuesFetch, hb]
  · intro now
    unfold validateTimeSelection
    split_ifs with h1 h2 h3 <;> first | rfl | omega
  · intro t now h
    unfold validateTimeSelection
    split_ifs with h1 h2 h3 <;> first | rfl | omega

/-- Witness for C8 at the concrete pair (start 0, end +10min, now 0). -/
theorem c8_time_validation_witness :
    validateTimeSelection 0 600000 0 = .errMinDuration :=
  c8_time_validation.2.2.2.2.2.2.2 0 0 (le_refl 0)

/-- C9: the two verbatim-duplicated list updaters of the realtime
handler agree on every input; every operation that touches the space
collections (the fetch-driven loads followed by the mirroring effect,
every realtime event, and the filter-state operations) preserves
`filteredSpaces = parkingSpaces`; and the amenity/price filter
operations change neither projection, so the FilterState never narrows
the filtered projection. -/
theorem c9_filtered_mirror :
    (∀ (tw : Bool) (data : Obj) (l : List Obj),
        updateListFiltered tw data l = updateList tw data l) ∧
    (∀ (op : BuyerOp) (st : BuyerState),
        st.filteredSpaces = st.parkingSpaces →
        (applyOp op st).filteredSpaces = (applyOp op st).parkingSpaces) ∧
    (∀ (a : Amenity) (st : BuyerState),
        (applyOp (.amenityToggle a) st).filteredSpaces = st.filteredSpaces ∧
        (applyOp (.amenityToggle a) st).parkingSpaces = st.parkingSpaces) ∧
    (∀ (lo hi : ℚ) (st : BuyerState),
        (applyOp (.priceRange lo hi) st).filteredSpaces = st.filteredSpaces ∧
        (applyOp (.priceRange lo hi) st).parkingSpaces = st.parkingSpaces) ∧
    (∀ st : BuyerState,
        (applyOp .filtersClear st).filteredSpaces = st.filteredSpaces ∧
        (applyOp .filtersClear st).parkingSpaces = st.parkingSpaces) := by
  refine ⟨updateListFiltered_eq, ?_, fun a st => ⟨rfl, rfl⟩,
    fun lo hi st => ⟨rfl, rfl⟩, fun st => ⟨rfl, rfl⟩⟩
  intro op st h
  cases op with
  | initialLoad tw a n => rfl
  | searchSelect tw r => rfl
  | timeApply tw r => rfl
  | timeClear r => rfl
  | realtime tw data =>
    cases data with
    | none => exact h
    | some d =>
      show updateListFiltered tw d st.filteredSpaces = updateList tw d st.parkingSpaces
      rw [updateListFiltered_eq, h]
  | amenityToggle a => exact h
  | priceRange lo hi => exact h
  | filtersClear => exact h

/-- Witness for C9: the mirror invariant propagated through a concrete
realtime removal event. -/
theorem c9_filtered_mirror_witness :
    (applyOp (.realtime false (some dRejDemo))
        ⟨[spDemo], [spDemo], none, defaultFilters⟩).filteredSpaces
      = (applyOp (.realtime false (some dRejDemo))
        ⟨[spDemo], [spDemo], none, defaultFilters⟩).parkingSpaces :=
  c9_filtered_mirror.2.1 (.realtime false (some dRejDemo))
    ⟨[spDemo], [spDemo], none, defaultFilters⟩ rfl

/-- C10: the detail screen's realtime handler touches at most the
`availableSpots` field — every other field always keeps its value; when
the identifier is truthy, the resolved spot count is numeric and the
stringified identifiers agree, `availableSpots` is overwritten with the
resolved count; in every other situation (falsy or missing identifier,
non-numeric spot count, or non-matching identifier) the displayed space
is returned entirely unchanged — in particular the handler never
removes or nulls the space on a status change or offline flag. -/
theorem c10_detail_frame (data space : Obj) :
    (∀ k : String, ¬ k = "availableSpots" →
        getF (detailHandleParkingUpdate data space) k = getF space k) ∧
    (∀ q : ℚ, truthyId data = true →
        resolvedSpotsDetail data = some (.num q) →
        strVal (eventId data) = detailSid space →
        getF (detailHandleParkingUpdate data space) "availableSpots"
          = some (.num q)) ∧
    (truthyId data = false ∨ isNumOpt (resolvedSpotsDetail data) = false ∨
        ¬ strVal (eventId data) = detailSid space →
      detailHandleParkingUpdate data space = space) := by
  refine ⟨?_, ?_, ?_⟩
  · intro k hk
    by_cases hp : truthyId data
    · rcases hr : resolvedSpotsDetail data with _ | val
      · simp [detailHandleParkingUpdate, hp, hr]
      · cases val with
        | num q =>
          by_cases hm : strVal (eventId data) == detailSid space
          · have hbk : (("availableSpots" : String) == k) = false := by
              simpa using fun h => hk h.symm
            simp [detailHandleParkingUpdate, hp, hr, hm, getF_cons, hbk]
          · simp [detailHandleParkingUpdate, hp, hr, hm]
        | str s => simp [detailHandleParkingUpdate, hp, hr]
        | bool b => simp [detailHandleParkingUpdate, hp, hr]
        | jnull => simp [detailHandleParkingUpdate, hp, hr]
        | obj s => simp [detailHandleParkingUpdate, hp, hr]
        | meta m => simp [detailHandleParkingUpdate, hp, hr]
    · simp [detailHandleParkingUpdate, hp]
  · intro q hp hr hm
    have hb : (strVal (eventId data) == detailSid space) = true := by
      simpa using hm
    simp [detailHandleParkingUpdate, hp, hr, hb, getF_cons]
  · intro h
    rcases h with h | h | h
    · simp [detailHandleParkingUpdate, h]
    · by_cases hp : truthyId data
      · rcases hr : resolvedSpotsDetail data with _ | val
        · simp [detailHandleParkingUpdate, hp, hr]
        · cases val with
          | num q => rw [hr] at h; simp [isNumOpt] at h
          | str s => simp [detailHandleParkingUpdate, hp, hr]
          | bool b => simp [detailHandleParkingUpdate, hp, hr]
          | jnull => simp [detailHandleParkingUpdate, hp, hr]
          | obj s => simp [detailHandleParkingUpdate, hp, hr]
          | meta m => simp [detailHandleParkingUpdate, hp, hr]
      · simp [detailHandleParkingUpdate, hp]
    · have hb : (strVal (eventId data) == detailSid space) = false := by
        simpa using h
      by_cases hp : truthyId data
      · rcases hr : resolvedSpotsDetail data with _ | val
        · simp [detailHandleParkingUpdate, hp, hr]
        · cases val with
          | num q => simp [detailHandleParkingUpdate, hp, hr, hb]
          | str s => simp [detailHandleParkingUpdate, hp, hr]
          | bool b => simp [detailHandleParkingUpdate, hp, hr]
          | jnull => simp [detailHandleParkingUpdate, hp, hr]
          | obj s => simp [detailHandleParkingUpdate, hp, hr]
          | meta m => simp [detailHandleParkingUpdate, hp, hr]
      · simp [detailHandleParkingUpdate, hp]

/-- A demo event for the detail screen reporting 3 spots for "a". -/
def dDetailDemo : Obj := [("parkingId", .str "a"), ("availableSpots", .num 3)]

/-- Witness for C10: the matching update at a concrete event sets only
`availableSpots`, and the title field is untouched. -/
theorem c10_detail_frame_witness :
    getF (detailHandleParkingUpdate dDetailDemo spDemo) "availableSpots"
      = some (.num 3) ∧
    getF (detailHandleParkingUpdate dDetailDemo spDemo) "title"
      = getF spDemo "title" :=
  ⟨(c10_detail_frame dDetailDemo spDemo).2.1 3 (by decide) (by decide) (by decide),
   (c10_detail_frame dDetailDemo spDemo).1 "title" (by decide)⟩
